import Mathlib

/-!
Shallow embedding of the Framework Laptop ACPI driver
(src/framework_laptop.c) and proofs about its specified behaviour.

Machine integers are modelled as `Nat`/`Int` with explicit `% 256` /
`% 2^32` where the C code truncates.  Fallible C paths return their
errno-style `Int` (negative = error) exactly as the source does; the
sysfs read path additionally returns the emitted buffer contents as a
`String`.  Each driver function also returns the list of EC transport
requests it issued, so that "performs zero transport calls" style
properties are directly expressible.
-/

namespace FrameworkLaptop

/-! ### errno values used by the source (returned negated, as in C) -/

def ENODEV : Int := 19
def EINVAL : Int := 22
def ENOMEM : Int := 12
def ERANGE : Int := 34
/-- errno 5, spelled EIO in the C source. -/
def EIO_code : Int := 5

/-! ### EC protocol constants

`EC_CMD_CHARGE_LIMIT_CONTROL` and the mode bits are declared in
src/framework_laptop.c (lines 40-51); the keyboard-backlight command
identifiers and payload layouts come from the external
cros_ec_commands header that the source includes. -/

def EC_CMD_CHARGE_LIMIT_CONTROL : Nat := 0x3E03
def EC_CMD_PWM_GET_KEYBOARD_BACKLIGHT : Nat := 0x22
def EC_CMD_PWM_SET_KEYBOARD_BACKLIGHT : Nat := 0x23

def CHG_LIMIT_DISABLE : Nat := 1
def CHG_LIMIT_SET_LIMIT : Nat := 2
def CHG_LIMIT_GET_LIMIT : Nat := 8
def CHG_LIMIT_OVERRIDE : Nat := 128

/-! ### Transport model -/

/-- One EC command message, mirroring `struct cros_ec_command` plus its
data area: 16-bit command id, 8-bit version, declared response size
(`insize`), declared request size (`outsize`), and the outgoing data
bytes (the request parameters, already zero-padded by `memset`). -/
structure EcRequest where
  command : Nat
  version : Nat
  insize : Nat
  outsize : Nat
  data : List Nat
deriving DecidableEq

/-- What the underlying transport produces for one transfer: a status
(`status < 0` means the transfer itself failed) and the raw response
bytes the host received. -/
structure RawOutcome where
  status : Int
  received : List Nat
deriving DecidableEq

/-- The external transfer primitive underneath the adapter, as an
environment: a pure function from request to raw outcome. -/
structure Transport where
  xfer : EcRequest → RawOutcome

/-- Byte memory semantics: the response bytes the EC wrote overwrite the
front of the buffer region, whose remaining bytes keep their previous
(request/zeroed) contents — the source overlays request and response in
one union. -/
def overlay (base new : List Nat) : List Nat :=
  new ++ base.drop new.length

/-- Reads byte `i` of a buffer region (absent bytes are the `memset`
zeroes; stored values are bytes, hence the `% 256`). -/
def byteAt (bytes : List Nat) (i : Nat) : Nat :=
  bytes.getD i 0 % 256

/-- Modelled from the spec: `cros_ec_cmd_xfer_status` is the external
transfer primitive (kernel code, not in src/).  Per the spec's transfer
contract it performs exactly one transfer; a transport-level failure
surfaces as a negative status, and on success it returns the number of
bytes received together with the bytes.  No response-size check is
performed here or anywhere in the driver: the spec's design notes record
that response-size mismatches are left unchecked by the source. -/
def cros_ec_cmd_xfer_status (t : Transport) (req : EcRequest) : Int × List Nat :=
  let out := t.xfer req
  if out.status < 0 then (out.status, out.received)
  else ((out.received.length : Int), out.received)

/-! ### Charge-limit and keyboard-backlight driver functions -/

/-- The request `charge_limit_control` builds: command 0x3E03, version 0,
`insize = sizeof(struct ec_response_chg_limit_control) = 2`,
`outsize = sizeof(struct ec_params_ec_chg_limit_control) = 3`, params
`{modes, max_percentage, min_percentage = 0}` (the buffer was zeroed
by `memset`, and `min_percentage` is never written). -/
def chargeMsg (modes max_percentage : Nat) : EcRequest :=
  ⟨EC_CMD_CHARGE_LIMIT_CONTROL, 0, 2, 3, [modes % 256, max_percentage % 256, 0]⟩

/-- `charge_limit_control` from src/framework_laptop.c lines 65-100.
`ec_device` is whether the process-wide EC handle is non-null.  Returns
the C return value (negative errno, or the response's `max_percentage`)
together with the list of transport calls performed.  The response
struct overlays the params in a union, so `resp->max_percentage` is
byte 0 of the data area after the received bytes were written over it. -/
def charge_limit_control (ec_device : Bool) (t : Transport)
    (modes max_percentage : Nat) : Int × List EcRequest :=
  if ec_device = false then (-ENODEV, [])
  else
    let msg := chargeMsg modes max_percentage
    let res := cros_ec_cmd_xfer_status t msg
    if res.1 < 0 then (-EIO_code, [msg])
    else ((byteAt (overlay msg.data (res.2.take 2)) 0 : Int), [msg])

/-- The request `kb_led_get` builds: `EC_CMD_PWM_GET_KEYBOARD_BACKLIGHT`,
version 0, `insize = sizeof(struct ec_response_pwm_get_keyboard_backlight) = 2`
(byte 0 `percent`, byte 1 `enabled`, per the external header), empty request. -/
def kbGetMsg : EcRequest :=
  ⟨EC_CMD_PWM_GET_KEYBOARD_BACKLIGHT, 0, 2, 0, []⟩

/-- `kb_led_get` from src/framework_laptop.c lines 103-139.  Returns the
brightness (the C function's return type is the unsigned
`enum led_brightness`, and every failure path jumps to `out: return 0`)
together with the transport calls made.  The union holds only the
2-byte response, zeroed by `memset` before the transfer. -/
def kb_led_get (ec_device : Bool) (t : Transport) : Nat × List EcRequest :=
  if ec_device = false then (0, [])
  else
    let res := cros_ec_cmd_xfer_status t kbGetMsg
    if res.1 < 0 then (0, [kbGetMsg])
    else
      let resp := overlay [0, 0] (res.2.take 2)
      if byteAt resp 1 ≠ 0 then (byteAt resp 0, [kbGetMsg]) else (0, [kbGetMsg])

/-- The request `kb_led_set` builds: `EC_CMD_PWM_SET_KEYBOARD_BACKLIGHT`,
version 0, no response bytes, `outsize = sizeof(struct
ec_params_pwm_set_keyboard_backlight) = 1`, params `{percent = value}`. -/
def kbSetMsg (value : Nat) : EcRequest :=
  ⟨EC_CMD_PWM_SET_KEYBOARD_BACKLIGHT, 0, 0, 1, [value % 256]⟩

/-- `kb_led_set` from src/framework_laptop.c lines 142-176.  Note the
absent-handle guard returns `-EIO`, not `-ENODEV`. -/
def kb_led_set (ec_device : Bool) (t : Transport) (value : Nat) :
    Int × List EcRequest :=
  if ec_device = false then (-EIO_code, [])
  else
    let res := cros_ec_cmd_xfer_status t (kbSetMsg value)
    if res.1 < 0 then (-EIO_code, [kbSetMsg value]) else (0, [kbSetMsg value])

/-! ### The sysfs attribute read/write paths -/

/-- `battery_get_threshold` from src/framework_laptop.c lines 179-188:
on a negative result from `charge_limit_control` the errno is returned;
otherwise `sysfs_emit(buf, "%d\n", ret)` fills the buffer, modelled as
the emitted string. -/
def battery_get_threshold (ec_device : Bool) (t : Transport) :
    Except Int String × List EcRequest :=
  let res := charge_limit_control ec_device t CHG_LIMIT_GET_LIMIT 0
  if res.1 < 0 then (Except.error res.1, res.2)
  else (Except.ok (toString res.1 ++ "\n"), res.2)

def UINT_MAX : Nat := 4294967295

/-- Modelled from the spec and the kernel contract of `kstrtouint`
(external kernel helper, not in src/): base-10 parse of an optional
leading plus sign, then decimal digits, optionally followed by a single
trailing newline; empty or non-numeric input is rejected with `-EINVAL`
and values above `UINT_MAX` with `-ERANGE`. -/
def kstrtouint10 (s : String) : Except Int Nat :=
  let cs0 := s.data
  let cs1 := if cs0.getLast? = some '\n' then cs0.dropLast else cs0
  let cs := if cs1.head? = some '+' then cs1.drop 1 else cs1
  if cs.isEmpty then Except.error (-EINVAL)
  else if cs.all (fun c => c.isDigit) = false then Except.error (-EINVAL)
  else
    let v := cs.foldl (fun a c => a * 10 + (c.toNat - 48)) 0
    if v > UINT_MAX then Except.error (-ERANGE) else Except.ok v

/-- Reinterpretation of an unsigned 32-bit value as a signed 32-bit
`int`, as happens when `kstrtouint` stores through the `int value`
variable in `battery_set_threshold`. -/
def toInt32 (n : Nat) : Int :=
  if n % 4294967296 < 2147483648 then ((n % 4294967296 : Nat) : Int)
  else ((n % 4294967296 : Nat) : Int) - 4294967296

/-- `battery_set_threshold` from src/framework_laptop.c lines 190-207.
`value` is declared `int` while `kstrtouint` stores an `unsigned int`
into it, so the parsed value is read back reinterpreted as a signed
32-bit integer before the `value > 100` check; `(uint8_t)value`
truncates modulo 256 (equal to `parsed % 256`).  On success the C
function returns `count`. -/
def battery_set_threshold (ec_device : Bool) (t : Transport)
    (buf : String) (count : Nat) : Int × List EcRequest :=
  match kstrtouint10 buf with
  | Except.error e => (e, [])
  | Except.ok parsed =>
    let value : Int := toInt32 parsed
    if value > 100 then (-EINVAL, [])
    else
      let res := charge_limit_control ec_device t CHG_LIMIT_SET_LIMIT (parsed % 256)
      if res.1 < 0 then (res.1, res.2) else ((count : Int), res.2)

/-! ### Battery hook -/

/-- A battery as the hook sees it: its power-supply descriptor name and
whether the charge-limit attribute group is installed on its device. -/
structure Battery where
  name : String
  groupInstalled : Bool
deriving DecidableEq

/-- `framework_laptop_battery_add` from src/framework_laptop.c lines
230-240: rejects with `-ENODEV` any battery not named "BAT1"; for the
matching battery installs the attribute group via the external
`device_add_groups`, whose success is the environment flag
`addGroupsOk` (on its failure nothing stays installed and `-ENODEV` is
returned). -/
def framework_laptop_battery_add (addGroupsOk : Bool) (b : Battery) :
    Int × Battery :=
  if b.name ≠ "BAT1" then (-ENODEV, b)
  else if addGroupsOk then (0, { b with groupInstalled := true })
  else (-ENODEV, b)

/-- `framework_laptop_battery_remove` from src/framework_laptop.c lines
242-246: unconditionally removes the group and returns 0. -/
def framework_laptop_battery_remove (b : Battery) : Int × Battery :=
  (0, { b with groupInstalled := false })

/-! ### Device lifecycle -/

structure Platform where
  vendor : String
  product : String

/-- Modelled from the spec: `dmi_check_system` against
`framework_laptop_dmi_table` (the matching engine is external kernel
code; the table in src/framework_laptop.c lines 260-269 names vendor
"Framework" and product "Laptop").  Per the spec the platform identity
check "matches iff both equal fixed expected values" — no partial
matching. -/
def dmi_check_system (p : Platform) : Bool :=
  decide (p.vendor = "Framework") && decide (p.product = "Laptop")

/-- Environment of one attach attempt: the platform identity strings,
the result of `bus_find_device_by_name` (which takes a device reference
when it succeeds), whether `devm_kzalloc` succeeds, and the return value
of `devm_led_classdev_register` (0 = success). -/
structure AttachEnv where
  platform : Platform
  ecLookup : Option Nat
  allocOk : Bool
  ledRet : Int

/-- Observable driver state: the process-wide `ec_device` pointer, the
number of device references currently held on it, and which external
registrations are live. -/
structure DriverState where
  ec_device : Option Nat
  ecRefs : Nat
  ledRegistered : Bool
  hookRegistered : Bool
deriving DecidableEq

def initState : DriverState := ⟨none, 0, false, false⟩

/-- `framework_add` from src/framework_laptop.c lines 272-320: DMI check
(else `-ENODEV`), EC lookup into the global `ec_device` (a successful
lookup takes a device reference; a failed one leaves the global NULL and
returns `-EINVAL`), `devm_kzalloc` (else `-ENOMEM`),
`devm_led_classdev_register` (else its error is returned), then
`battery_hook_register`, whose (void) result is not checked.  No failure
path after the EC lookup releases the device reference or clears the
global. -/
def framework_add (env : AttachEnv) (s : DriverState) : Int × DriverState :=
  if dmi_check_system env.platform = false then (-ENODEV, s)
  else
    match env.ecLookup with
    | none => (-EINVAL, { s with ec_device := none })
    | some h =>
      let s1 := { s with ec_device := some h, ecRefs := s.ecRefs + 1 }
      if env.allocOk = false then (-ENOMEM, s1)
      else if env.ledRet ≠ 0 then (env.ledRet, s1)
      else (0, { s1 with ledRegistered := true, hookRegistered := true })

/-- `framework_remove` from src/framework_laptop.c lines 322-327:
unregisters the battery hook and calls `put_device(ec_device)` (dropping
one reference); the global `ec_device` pointer itself is not written.
(The devm-managed LED device is torn down by the driver core outside
this function.) -/
def framework_remove (s : DriverState) : DriverState :=
  { s with hookRegistered := false, ecRefs := s.ecRefs - 1 }

/-! ### Concrete transports and a simulated EC -/

/-- A transport whose EC stores the SET_LIMIT request's
`max_percentage` and echoes it back on GET_LIMIT, without clamping
(the simulated firmware of the round-trip property). -/
def ecSimOutcome (stored : Nat) (req : EcRequest) : RawOutcome :=
  if req.command = EC_CMD_CHARGE_LIMIT_CONTROL then
    if byteAt req.data 0 = CHG_LIMIT_SET_LIMIT then
      ⟨0, [byteAt req.data 1, 0]⟩
    else ⟨0, [stored % 256, 0]⟩
  else ⟨0, List.replicate req.insize 0⟩

def ecSim (stored : Nat) : Transport := ⟨ecSimOutcome stored⟩

/-- State transition of the simulated EC on one request. -/
def ecSimStep (stored : Nat) (req : EcRequest) : Nat :=
  if req.command = EC_CMD_CHARGE_LIMIT_CONTROL then
    if byteAt req.data 0 = CHG_LIMIT_SET_LIMIT then byteAt req.data 1 else stored
  else stored

def runTrace (s : Nat) (calls : List EcRequest) : Nat :=
  calls.foldl ecSimStep s

/-- One sysfs write of `buf` followed by one sysfs read, against the
simulated EC started in state `s0`; the EC state is threaded through the
trace of transport calls the write made.  Produces the read's result. -/
def setThenGet (buf : String) (s0 : Nat) (count : Nat) : Except Int String :=
  let setRes := battery_set_threshold true (ecSim s0) buf count
  let s1 := runTrace s0 setRes.2
  (battery_get_threshold true (ecSim s1)).1

/-! ### Concrete environments used by the claims -/

/-- A transport whose response reports the backlight disabled with
percent 77. -/
def tEnabled77 : Transport := ⟨fun _ => ⟨0, [77, 0]⟩⟩

/-- A transport whose response reports the backlight enabled at 77%. -/
def tOn77 : Transport := ⟨fun _ => ⟨0, [77, 1]⟩⟩

/-- A transport that fails every transfer outright. -/
def tFail : Transport := ⟨fun _ => ⟨-1, []⟩⟩

/-- A transport that declares success but returns only one byte. -/
def tShort : Transport := ⟨fun _ => ⟨0, [200]⟩⟩

/-- A transport whose EC echoes max_percentage 200. -/
def echo200 : Transport := ⟨fun _ => ⟨0, [200, 0]⟩⟩

def goodPlatform : Platform := ⟨"Framework", "Laptop"⟩

def allocFailEnv : AttachEnv := ⟨goodPlatform, some 0, false, 0⟩

def ledFailEnv : AttachEnv := ⟨goodPlatform, some 0, true, -16⟩

def goodEnv : AttachEnv := ⟨goodPlatform, some 0, true, 0⟩

/-! ### The claims -/

/-- C1: the claim states that every parsed value greater than 100 makes the
charge-limit write path fail with `-EINVAL` before any transport call.
Evaluating the write path at the input "4294967295": the value parses
successfully to 4294967295 (greater than 100), but since `kstrtouint`'s
unsigned result is stored in the signed `int value`, the range check reads
it as -1 and passes, and the transport is invoked once with
max_percentage 255; the write returns `count` (success), not `-EINVAL`. -/
theorem battery_set_threshold_overflow_bypasses_range_check :
    kstrtouint10 "4294967295" = Except.ok 4294967295 ∧
    (battery_set_threshold true (ecSim 0) "4294967295" 10).1 = 10 ∧
    (battery_set_threshold true (ecSim 0) "4294967295" 10).2 =
      [chargeMsg CHG_LIMIT_SET_LIMIT 255] :=
  ⟨rfl, rfl, rfl⟩

/-- C4 counterexample: with the EC handle absent, the backlight-set path
returns `-EIO` — the same code that a failed transfer produces — not the
distinct `-ENODEV` DeviceNotPresent error the claim requires for every
failable feature operation. -/
theorem kb_led_set_absent_handle_returns_eio :
    (kb_led_set false (ecSim 0) 50).1 = -EIO_code ∧ -EIO_code ≠ -ENODEV :=
  ⟨rfl, by decide⟩

/-- C4 amended: if the EC handle is unresolved, every failable feature
operation fails immediately and performs zero transport calls; charge-limit
get and set fail with the DeviceNotPresent error (`-ENODEV`), while
backlight set fails with the TransferFailed code (`-EIO`) rather than a
distinct DeviceNotPresent error. -/
theorem absent_handle_no_transfer (t : Transport) (m mx v c p : Nat)
    (buf : String) (hp : kstrtouint10 buf = Except.ok p)
    (hle : toInt32 p ≤ 100) :
    charge_limit_control false t m mx = (-ENODEV, []) ∧
    battery_get_threshold false t = (Except.error (-ENODEV), []) ∧
    battery_set_threshold false t buf c = (-ENODEV, []) ∧
    kb_led_set false t v = (-EIO_code, []) := by
  refine ⟨rfl, rfl, ?_, rfl⟩
  simp only [battery_set_threshold, hp]
  rw [if_neg (by omega)]
  rfl

theorem absent_handle_no_transfer_witness :
    charge_limit_control false (ecSim 0) CHG_LIMIT_GET_LIMIT 0 = (-ENODEV, []) ∧
    battery_get_threshold false (ecSim 0) = (Except.error (-ENODEV), []) ∧
    battery_set_threshold false (ecSim 0) "50" 2 = (-ENODEV, []) ∧
    kb_led_set false (ecSim 0) 50 = (-EIO_code, []) :=
  absent_handle_no_transfer (ecSim 0) CHG_LIMIT_GET_LIMIT 0 50 2 50 "50" rfl
    (by decide)

/-- C6: with the platform matching and the EC device present, a failure of
the data allocation (and likewise of the LED-device registration) makes
`framework_add` report the failure while the global `ec_device` stays set
and its device reference stays held: the EC handle is not released and
partial-attached state remains live. -/
theorem framework_add_failure_keeps_ec_handle :
    framework_add allocFailEnv initState = (-ENOMEM, ⟨some 0, 1, false, false⟩) ∧
    framework_add ledFailEnv initState = (-16, ⟨some 0, 1, false, false⟩) :=
  ⟨rfl, rfl⟩

/-- C7: if the platform identity check fails (vendor not "Framework" or
product not "Laptop"), attach fails with `-ENODEV` (UnsupportedPlatform)
and returns the state entirely unchanged: the EC handle is not resolved,
no reference is taken, and neither the LED device nor the battery hook is
registered — the system remains Detached.  (Matching is modelled from the
spec as exact equality; the matching engine itself is external kernel
code.) -/
theorem framework_add_unsupported_platform (env : AttachEnv) (s : DriverState)
    (h : env.platform.vendor ≠ "Framework" ∨ env.platform.product ≠ "Laptop") :
    framework_add env s = (-ENODEV, s) := by
  have hd : dmi_check_system env.platform = false := by
    unfold dmi_check_system
    rcases h with h | h <;> simp [h]
  unfold framework_add
  rw [if_pos hd]

theorem framework_add_unsupported_platform_witness :
    framework_add ⟨⟨"OtherVendor", "Laptop"⟩, some 0, true, 0⟩ initState =
      (-ENODEV, initState) :=
  framework_add_unsupported_platform _ _ (Or.inl (by decide))

/-- C8: the battery hook installs the charge-limit attribute group iff the
battery's name is "BAT1" (given that the external group-install primitive
succeeds); every other name is rejected with `-ENODEV` and nothing is
installed; removal always returns 0. -/
theorem battery_hook_name_match (ok : Bool) (b : Battery) :
    (b.name ≠ "BAT1" → framework_laptop_battery_add ok b = (-ENODEV, b)) ∧
    (b.name = "BAT1" → ok = true →
      framework_laptop_battery_add ok b = (0, { b with groupInstalled := true })) ∧
    (b.groupInstalled = false →
      ((framework_laptop_battery_add ok b).2.groupInstalled = true ↔
        (b.name = "BAT1" ∧ ok = true))) ∧
    (framework_laptop_battery_remove b).1 = 0 := by
  refine ⟨?_, ?_, ?_, rfl⟩
  · intro h
    rw [framework_laptop_battery_add, if_pos h]
  · intro h hok
    rw [framework_laptop_battery_add, if_neg (not_not.mpr h), hok, if_pos rfl]
  · intro hg
    by_cases hn : b.name = "BAT1" <;> cases ok <;>
      simp [framework_laptop_battery_add, hn, hg]

theorem battery_hook_name_match_witness :
    framework_laptop_battery_add true ⟨"BAT0", false⟩ = (-ENODEV, ⟨"BAT0", false⟩) ∧
    framework_laptop_battery_add true ⟨"BAT1", false⟩ = (0, ⟨"BAT1", true⟩) ∧
    (framework_laptop_battery_remove ⟨"BAT1", true⟩).1 = 0 :=
  ⟨(battery_hook_name_match true ⟨"BAT0", false⟩).1 (by decide),
   (battery_hook_name_match true ⟨"BAT1", false⟩).2.1 (by decide) rfl,
   (battery_hook_name_match true ⟨"BAT1", true⟩).2.2.2⟩

/-- The response region `kb_led_get` reads from after a transfer: the
received bytes overlaid on the zeroed 2-byte union. -/
def kbRespOf (t : Transport) : List Nat :=
  overlay [0, 0] ((t.xfer kbGetMsg).received.take 2)

/-- The `enabled` field (byte 1) of the backlight-get response. -/
def kbEnabledOf (t : Transport) : Nat := byteAt (kbRespOf t) 1

/-- The `percent` field (byte 0) of the backlight-get response. -/
def kbPercentOf (t : Transport) : Nat := byteAt (kbRespOf t) 0

/-- A declared-success response shorter than the 2-byte backlight layout
leaves the `enabled` byte at its `memset` zero, since the short payload
only overwrites the front of the zeroed union. -/
theorem kb_enabled_zero_of_short (l : List Nat) (h : l.length < 2) :
    byteAt (overlay [0, 0] (l.take 2)) 1 = 0 := by
  cases l with
  | nil => rfl
  | cons a tl =>
    cases tl with
    | nil => rfl
    | cons b tl2 => simp only [List.length_cons] at h; omega

/-- Characterization of `kb_led_get` with the handle present, by the raw
transport outcome.  A short declared-success response yields 0 because the
`enabled` byte it never wrote is still the `memset` zero. -/
theorem kb_led_get_true_eq (t : Transport) :
    (kb_led_get true t).1 =
      if (t.xfer kbGetMsg).status < 0 then 0
      else if (t.xfer kbGetMsg).received.length < 2 then 0
      else if kbEnabledOf t ≠ 0 then kbPercentOf t
      else 0 := by
  simp only [kb_led_get, cros_ec_cmd_xfer_status, kbEnabledOf, kbPercentOf, kbRespOf]
  rw [if_neg (by decide : ¬(true = false))]
  generalize t.xfer kbGetMsg = o
  obtain ⟨st, rec⟩ := o
  by_cases h1 : st < 0
  · simp [h1]
  · by_cases h2 : rec.length < 2
    · simp [h1, h2, (by omega : ¬((rec.length : Int) < 0)),
        kb_enabled_zero_of_short rec h2]
    · rw [if_neg h1, if_neg h2,
        if_neg (by omega : ¬((rec.length : Int), rec).1 < 0)]
      split_ifs <;> rfl

/-- C2: `get_brightness` never returns an error (its result is a plain
brightness, and every failure path yields 0): with the EC handle absent,
with a failed transfer, with a short response, or with `enabled = 0` the
result is 0 regardless of the `percent` field, and only when the transfer
succeeds with a full response and `enabled` nonzero is the response's
`percent` returned. -/
theorem kb_led_get_spec (ec : Bool) (t : Transport) :
    (ec = false → (kb_led_get ec t).1 = 0) ∧
    ((t.xfer kbGetMsg).status < 0 → (kb_led_get ec t).1 = 0) ∧
    ((t.xfer kbGetMsg).received.length < 2 → (kb_led_get ec t).1 = 0) ∧
    (kbEnabledOf t = 0 → (kb_led_get ec t).1 = 0) ∧
    (ec = true → 0 ≤ (t.xfer kbGetMsg).status →
      2 ≤ (t.xfer kbGetMsg).received.length →
      kbEnabledOf t ≠ 0 → (kb_led_get ec t).1 = kbPercentOf t) := by
  cases ec with
  | false =>
    exact ⟨fun _ => rfl, fun _ => rfl, fun _ => rfl, fun _ => rfl,
      fun h => by simp at h⟩
  | true =>
    rw [kb_led_get_true_eq]
    refine ⟨fun h => by simp at h, fun h => ?_, fun h => ?_, fun h => ?_,
      fun _ h1 h2 h3 => ?_⟩
    · rw [if_pos h]
    · split_ifs <;> omega
    · split_ifs with h1 h2 h3
      · rfl
      · rfl
      · exact absurd h h3
      · rfl
    · rw [if_neg (by omega), if_neg (by omega), if_pos h3]

theorem kb_led_get_spec_witness :
    (kb_led_get true tEnabled77).1 = 0 ∧
    (kb_led_get true tFail).1 = 0 ∧
    (kb_led_get true tOn77).1 = kbPercentOf tOn77 ∧
    kbPercentOf tOn77 = 77 :=
  ⟨(kb_led_get_spec true tEnabled77).2.2.2.1 (by decide),
   (kb_led_get_spec true tFail).2.1 (by decide),
   (kb_led_get_spec true tOn77).2.2.2.2 rfl (by decide) (by decide) (by decide),
   rfl⟩

/-- C5: the claim says a response that declares success but carries fewer
bytes than the command's fixed response size makes the operation fail with
a SizeMismatch error treated as TransferFailed, and the partial payload is
never interpreted.  Evaluating the code at a transfer that declares
success (status 0) but returns a single byte, 200, for
CHARGE_LIMIT_CONTROL (fixed response size 2): the driver checks only
`ret < 0`, so it does not fail — it reads `resp->max_percentage` out of
the partially overwritten union and returns 200, and the attribute read
emits "200\n".  No size check exists anywhere in the driver. -/
theorem short_success_payload_interpreted :
    0 ≤ (tShort.xfer (chargeMsg CHG_LIMIT_GET_LIMIT 0)).status ∧
    (tShort.xfer (chargeMsg CHG_LIMIT_GET_LIMIT 0)).received.length < 2 ∧
    (charge_limit_control true tShort CHG_LIMIT_GET_LIMIT 0).1 = 200 ∧
    (charge_limit_control true tShort CHG_LIMIT_GET_LIMIT 0).1 ≠ -EIO_code ∧
    (battery_get_threshold true tShort).1 = Except.ok (toString 200 ++ "\n") :=
  ⟨by decide, by decide, rfl, by decide, rfl⟩

theorem toString_intCast (n : Nat) : toString ((n : Nat) : Int) = toString n := rfl

theorem toInt32_small (n : Nat) (h : n < 2147483648) : toInt32 n = (n : Int) := by
  unfold toInt32
  rw [Nat.mod_eq_of_lt (by omega), if_pos h]

/-- Sending SET_LIMIT with max `p ≤ 100` through the simulated EC succeeds
(the EC echoes the request). -/
theorem charge_set_on_sim (s p : Nat) (hp : p ≤ 100) :
    charge_limit_control true (ecSim s) CHG_LIMIT_SET_LIMIT p =
      ((p : Int), [chargeMsg CHG_LIMIT_SET_LIMIT p]) := by
  have h256 : p % 256 = p := Nat.mod_eq_of_lt (by omega)
  simp [charge_limit_control, chargeMsg, cros_ec_cmd_xfer_status, ecSim, ecSimOutcome,
    byteAt, overlay, h256, CHG_LIMIT_SET_LIMIT, EC_CMD_CHARGE_LIMIT_CONTROL]

/-- Sending GET_LIMIT through the simulated EC returns its stored value. -/
theorem charge_get_on_sim (s : Nat) (hs : s ≤ 100) :
    charge_limit_control true (ecSim s) CHG_LIMIT_GET_LIMIT 0 =
      ((s : Int), [chargeMsg CHG_LIMIT_GET_LIMIT 0]) := by
  have h256 : s % 256 = s := Nat.mod_eq_of_lt (by omega)
  simp [charge_limit_control, chargeMsg, cros_ec_cmd_xfer_status, ecSim, ecSimOutcome,
    byteAt, overlay, h256, CHG_LIMIT_SET_LIMIT, CHG_LIMIT_GET_LIMIT,
    EC_CMD_CHARGE_LIMIT_CONTROL]

theorem ecSimStep_set (s p : Nat) (hp : p ≤ 100) :
    ecSimStep s (chargeMsg CHG_LIMIT_SET_LIMIT p) = p := by
  have h256 : p % 256 = p := Nat.mod_eq_of_lt (by omega)
  simp [ecSimStep, chargeMsg, byteAt, h256, CHG_LIMIT_SET_LIMIT,
    EC_CMD_CHARGE_LIMIT_CONTROL]

/-- C3: for every buffer that parses to a percentage `p ≤ 100`, a sysfs
charge-limit write with that buffer followed by a read, run against the
simulated EC (which stores SET_LIMIT's max_percentage and echoes it on
GET_LIMIT without clamping), reads back exactly `p`. -/
theorem set_then_get_roundtrip (buf : String) (p s0 c : Nat)
    (hp : kstrtouint10 buf = Except.ok p) (hle : p ≤ 100) :
    setThenGet buf s0 c = Except.ok (toString p ++ "\n") := by
  unfold setThenGet
  simp only [battery_set_threshold, hp]
  rw [toInt32_small p (by omega), if_neg (by omega : ¬((p : Int) > 100)),
    Nat.mod_eq_of_lt (show p < 256 by omega), charge_set_on_sim s0 p hle,
    if_neg (by omega : ¬((p : Int) < 0))]
  show (battery_get_threshold true
    (ecSim (runTrace s0 [chargeMsg CHG_LIMIT_SET_LIMIT p]))).1 = _
  rw [show runTrace s0 [chargeMsg CHG_LIMIT_SET_LIMIT p] = p from ecSimStep_set s0 p hle]
  unfold battery_get_threshold
  rw [charge_get_on_sim p hle, if_neg (by omega : ¬((p : Int) < 0)), toString_intCast]

theorem set_then_get_roundtrip_witness :
    kstrtouint10 "60" = Except.ok 60 ∧
    setThenGet "60" 0 1 = Except.ok (toString 60 ++ "\n") :=
  ⟨rfl, set_then_get_roundtrip "60" 60 0 1 rfl (by omega)⟩

/-- Any result of `charge_limit_control` with the handle present is either
the `-EIO` failure or a byte value (0–255) read from the response. -/
theorem charge_limit_control_result (t : Transport) (m mx : Nat) :
    (charge_limit_control true t m mx).1 = -EIO_code ∨
    ∃ n : Nat, n < 256 ∧ (charge_limit_control true t m mx).1 = (n : Int) := by
  simp only [charge_limit_control]
  rw [if_neg (by decide : ¬(true = false))]
  by_cases h : (cros_ec_cmd_xfer_status t (chargeMsg m mx)).1 < 0
  · rw [if_pos h]
    exact Or.inl rfl
  · rw [if_neg h]
    exact Or.inr ⟨byteAt (overlay (chargeMsg m mx).data
      ((cros_ec_cmd_xfer_status t (chargeMsg m mx)).2.take 2)) 0,
      Nat.mod_lt _ (by omega), rfl⟩

/-- C9 counterexample: with the EC echoing max_percentage 200, the
charge-limit attribute read succeeds and emits the decimal integer 200
followed by a newline — and 200 is outside the range 0 to 100 the claim
asserts for every echoed byte. -/
theorem battery_read_emits_out_of_range :
    (battery_get_threshold true echo200).1 = Except.ok (toString 200 ++ "\n") ∧
    ¬(200 ≤ 100) :=
  ⟨rfl, by decide⟩

/-- C9 amended: every successful read of the charge-limit attribute emits
the byte echoed by the EC — a decimal ASCII integer in the range 0 to 255,
not clamped to 100 — followed by a newline. -/
theorem battery_read_emits_echoed_byte (t : Transport) (s : String)
    (h : (battery_get_threshold true t).1 = Except.ok s) :
    ∃ n : Nat, n < 256 ∧ s = toString n ++ "\n" := by
  simp only [battery_get_threshold] at h
  rcases charge_limit_control_result t CHG_LIMIT_GET_LIMIT 0 with hc | ⟨n, hn, hc⟩
  · rw [if_pos (by rw [hc]; decide)] at h
    exact absurd h (by simp)
  · rw [if_neg (by rw [hc]; omega), hc] at h
    simp only [Prod.fst, Except.ok.injEq] at h
    exact ⟨n, hn, by rw [← h, toString_intCast]⟩

theorem battery_read_emits_echoed_byte_witness :
    ∃ n : Nat, n < 256 ∧ "200\n" = toString n ++ "\n" :=
  battery_read_emits_echoed_byte echo200 "200\n" rfl

/-- C10: after a successful attach followed by a detach, the process-wide
EC handle is not reset to absent: `framework_remove` drops the device
reference but never writes the global `ec_device`, which still holds the
(now released) handle — a later feature operation's absent-handle check
would pass on this stale handle. -/
theorem framework_remove_leaves_stale_handle :
    (framework_add goodEnv initState).1 = 0 ∧
    (framework_add goodEnv initState).2 = ⟨some 0, 1, true, true⟩ ∧
    framework_remove (framework_add goodEnv initState).2 =
      ⟨some 0, 0, true, false⟩ :=
  ⟨rfl, rfl, rfl⟩

end FrameworkLaptop
